import Mathlib

set_option maxRecDepth 100000

/-!
Verification of the CRC-64-WE accumulator from
`zubax_chibios/bootloader/util.hpp` and of the C-library interceptors and
system halt hook from `zubax_chibios/sys/sys.cpp`, via a shallow embedding:
machine `uint64` state is a `Nat` reduced modulo `2 ^ 64` wherever the
hardware would wrap, pointers are `Option` values (`none` = null), and the
emergency print channel is an explicit trace of emitted strings.
-/

namespace CRC64WE

/-- The modulus of the 64-bit register `crc_` (a `std::uint64_t`). -/
def U64 : Nat := 2 ^ 64

/-- The generator polynomial constant `Poly = 0x42F0E1EBA9EA3693` from
`CRC64WE::add`. -/
def Poly : Nat := 0x42F0E1EBA9EA3693

/-- The top-bit mask `Mask = uint64_t(1) << 63` from `CRC64WE::add`. -/
def Mask : Nat := 1 <<< 63

/-- The initial value of the field `crc_ = 0xFFFFFFFFFFFFFFFFULL`. -/
def init : Nat := 0xFFFFFFFFFFFFFFFF

/-- One of the eight identical unrolled statements in `CRC64WE::add(byte)`:
`crc_ = (crc_ & Mask) ? (crc_ << 1) ^ Poly : crc_ << 1`, on `uint64`. -/
def shiftStep (c : Nat) : Nat :=
  if c &&& Mask ≠ 0 then ((c <<< 1) ^^^ Poly) % U64 else (c <<< 1) % U64

/-- `CRC64WE::add(std::uint8_t byte)`: `crc_ ^= uint64_t(byte) << 56` followed
by the eight manually unrolled shift statements. -/
def add (crc byte : Nat) : Nat :=
  let c := (crc ^^^ (byte <<< 56)) % U64
  let c := shiftStep c
  let c := shiftStep c
  let c := shiftStep c
  let c := shiftStep c
  let c := shiftStep c
  let c := shiftStep c
  let c := shiftStep c
  let c := shiftStep c
  c

/-- The loop body of `CRC64WE::add(const void* data, unsigned len)`: apply
`add` to each of the `len` bytes of the buffer in order. -/
def addBytes (crc : Nat) (bytes : List Nat) : Nat := bytes.foldl add crc

/-- `CRC64WE::get()`: returns `crc_ ^ 0xFFFFFFFFFFFFFFFFULL` without mutating
the accumulator. -/
def get (crc : Nat) : Nat := crc ^^^ 0xFFFFFFFFFFFFFFFF

/-- A sequence of calls delivered to one accumulator. Each element is the
byte list of one call: a single-byte `add(byte)` call is a one-element list,
an `add(buffer, len)` call is the list of the buffer's `len` bytes. -/
def feedCalls (crc : Nat) (calls : List (List Nat)) : Nat :=
  calls.foldl addBytes crc

/-- `CRC64WE::add(const void* data, unsigned len)` as compiled, including the
`assert(bytes != nullptr)` that executes before the loop. `assertsOn` models
an assertions-enabled (debug) build, `isNull` models `data == nullptr`, and
`bytes` are the `len` bytes the loop would read. `none` models a failed
assertion (which halts) or a null-pointer dereference. -/
def addBuffer (assertsOn : Bool) (crc : Nat) (isNull : Bool)
    (bytes : List Nat) : Option Nat :=
  if assertsOn && isNull then none
  else if isNull && !bytes.isEmpty then none
  else some (addBytes crc bytes)

/-- Modelled from the spec (refinement reference for the per-byte update):
one round of the documented algorithm, "shift left by 1, and if the bit
shifted out of the top was 1, XOR the polynomial into the result". -/
def specRound (c : Nat) : Nat :=
  if c.testBit 63 then ((c <<< 1) % U64) ^^^ Poly else (c <<< 1) % U64

/-- Iterated application of `specRound`, the documented 8-round loop. -/
def specRounds : Nat → Nat → Nat
  | 0, c => c
  | n + 1, c => specRounds n (specRound c)

/-- Modelled from the spec (refinement reference for the per-byte update):
"XOR the byte into the top 8 bits of the register, then perform 8 rounds". -/
def specAdd (crc byte : Nat) : Nat :=
  specRounds 8 ((crc ^^^ (byte <<< 56)) % U64)

end CRC64WE

namespace Sys

/-- The outcome of one of the intercepted C allocation entry points in
`sys.cpp`: `returned p` means the call returns the pointer `p` (with `none`
modelling `nullptr`); `escalated` means the `assert` in its body failed and
control escalated to the halt path instead of returning. -/
inductive AllocResult where
  | escalated (msg : String)
  | returned (p : Option Nat)
deriving DecidableEq

/-- Whether an allocation call escalated to the halt path. -/
def AllocResult.isEscalated : AllocResult → Bool
  | .escalated _ => true
  | .returned _ => false

/-- `malloc(size_t sz)` from `sys.cpp`: `assert(sz == 0); return nullptr`.
`assertsOn` models an assertions-enabled (debug) build; with assertions
disabled the `assert` is compiled out. -/
def malloc (assertsOn : Bool) (sz : Nat) : AllocResult :=
  if assertsOn && !(sz == 0) then .escalated "assert" else .returned none

/-- `calloc(size_t num, size_t sz)` from `sys.cpp`:
`assert((num == 0) || (sz == 0)); return nullptr`. -/
def calloc (assertsOn : Bool) (num sz : Nat) : AllocResult :=
  if assertsOn && !(num == 0 || sz == 0) then .escalated "assert"
  else .returned none

/-- `realloc(void*, size_t sz)` from `sys.cpp`: the pointer argument is
ignored; `assert(sz == 0); return nullptr`. -/
def realloc (assertsOn : Bool) (_p : Option Nat) (sz : Nat) : AllocResult :=
  if assertsOn && !(sz == 0) then .escalated "assert" else .returned none

/-- The outcome of `free`: either a silent no-op return, or a halt with the
message passed to `chSysHalt`. -/
inductive FreeResult where
  | noop
  | halted (msg : String)
deriving DecidableEq

/-- `free(void* p)` from `sys.cpp`: a null pointer is silently ignored; a
non-null pointer calls `chSysHalt("free")`. -/
def free (p : Option Nat) : FreeResult :=
  match p with
  | none => .noop
  | some _ => .halted "free"

/-- `emergencyPrint` modelled as appending the printed string to the trace
of everything the byte sink has received so far, in order. -/
def emergencyPrint (tr : List String) (s : String) : List String := tr ++ [s]

/-- The build configuration and thread-registry state visible to
`zchSysHaltHook`: `useRegistry` models `CH_CFG_USE_REGISTRY`, and
`threadName` is `some n` exactly when `chThdGetSelfX()` is non-null and its
`name` field is non-null (both null cases print nothing). -/
structure HaltEnv where
  useRegistry : Bool
  threadName : Option String
deriving DecidableEq

/-- The message section of `zchSysHaltHook` (`sys.cpp` lines 90-105),
returning the trace of strings the byte sink receives, in order: the panic
delimiter, the thread name when available, the closing bracket, the message
when its pointer is non-null (`msg = none` models a null `msg`, checked
before being dereferenced), and the trailing newline. -/
def zchSysHaltHook (env : HaltEnv) (msg : Option String) : List String :=
  let tr : List String := []
  let tr := emergencyPrint tr "\r\nPANIC ["
  let tr := if env.useRegistry then
              match env.threadName with
              | some n => emergencyPrint tr n
              | none => tr
            else tr
  let tr := emergencyPrint tr "] "
  let tr := match msg with
            | some m => emergencyPrint tr m
            | none => tr
  emergencyPrint tr "\r\n"

/-- The phases of the fatal-halt path. `returnedToCaller` is the phase in
which control would be back in the code that invoked the path; it is never
produced by `haltStep`. -/
inductive HaltPhase where
  | reporting
  | halted
  | returnedToCaller
deriving DecidableEq

/-- Modelled from the spec: `chSysHalt` and its terminal loop live in
ChibiOS, outside this excerpt; per the spec the reporter finishes reporting
and then enters Halted, which loops forever performing no further work (the
in-tree `while (true) { }` backstop in `__assert_func` matches). One step of
the fatal-halt path: reporting completes into the halt loop, and the halt
loop steps to itself. -/
def haltStep : HaltPhase → HaltPhase
  | .reporting => .halted
  | .halted => .halted
  | .returnedToCaller => .returnedToCaller

end Sys

/-- C1: feeding the nine ASCII bytes of "123456789" into a freshly
constructed CRC64WE accumulator via add, in order, and then calling get()
returns the documented standard check constant 0x62EC59E3F1A4F00A. -/
theorem crc64we_check_vector :
    CRC64WE.get (CRC64WE.addBytes CRC64WE.init
      [0x31, 0x32, 0x33, 0x34, 0x35, 0x36, 0x37, 0x38, 0x39]) =
      0x62EC59E3F1A4F00A := by
  decide

/-- C6: get() on a freshly constructed CRC64WE accumulator, before any add,
returns the seed 0xFFFFFFFFFFFFFFFF XORed with the output mask
0xFFFFFFFFFFFFFFFF, which is 0. -/
theorem crc64we_fresh_get :
    CRC64WE.get CRC64WE.init = 0xFFFFFFFFFFFFFFFF ^^^ 0xFFFFFFFFFFFFFFFF ∧
    CRC64WE.get CRC64WE.init = 0 := by
  decide

/-- Folding the per-byte update over a concatenation equals folding the
second list starting from the fold over the first. -/
theorem addBytes_append (crc : Nat) (A B : List Nat) :
    CRC64WE.addBytes crc (A ++ B) =
      CRC64WE.addBytes (CRC64WE.addBytes crc A) B := by
  simp [CRC64WE.addBytes, List.foldl_append]

/-- A sequence of add calls accumulates exactly the concatenation of the
byte lists of the calls. -/
theorem feedCalls_eq_addBytes_join (crc : Nat) (calls : List (List Nat)) :
    CRC64WE.feedCalls crc calls = CRC64WE.addBytes crc calls.flatten := by
  induction calls generalizing crc with
  | nil => rfl
  | cons c cs ih =>
      have h1 : CRC64WE.feedCalls crc (c :: cs) =
          CRC64WE.feedCalls (CRC64WE.addBytes crc c) cs := rfl
      rw [h1, ih, List.flatten_cons, addBytes_append]

/-- C2: for every pair of byte sequences A and B and every way of splitting
the concatenation A ++ B into successive add(byte) and add(buffer, length)
calls (each call is one byte list; a single-byte call is a one-element
list), get() on the accumulator afterwards equals feeding the whole
concatenation in a single call. -/
theorem crc64we_chunk_invariance (A B : List Nat) (calls : List (List Nat))
    (h : calls.flatten = A ++ B) :
    CRC64WE.get (CRC64WE.feedCalls CRC64WE.init calls) =
      CRC64WE.get (CRC64WE.addBytes CRC64WE.init (A ++ B)) := by
  rw [feedCalls_eq_addBytes_join, h]

/-- Concrete instance of C2: bytes [1, 2] then [3], split as a single-byte
call followed by a two-byte buffer call. -/
theorem crc64we_chunk_invariance_witness :
    ([[1], [2, 3]] : List (List Nat)).flatten = [1, 2] ++ [3] ∧
    CRC64WE.get (CRC64WE.feedCalls CRC64WE.init [[1], [2, 3]]) =
      CRC64WE.get (CRC64WE.addBytes CRC64WE.init ([1, 2] ++ [3])) :=
  ⟨by decide, crc64we_chunk_invariance [1, 2] [3] [[1], [2, 3]] (by decide)⟩

/-- The nonzero test on the masked top bit used by the unrolled source agrees
with testing bit 63. -/
theorem and_mask_ne_zero (c : Nat) :
    c &&& CRC64WE.Mask ≠ 0 ↔ c.testBit 63 = true := by
  have h : CRC64WE.Mask = 2 ^ 63 := by decide
  rw [h, Nat.and_two_pow]
  cases hb : c.testBit 63 <;> simp [hb]

/-- Reducing modulo a power of two commutes with xor by a value below that
power of two. -/
theorem xor_mod_two_pow_right (a b n : Nat) (hb : b < 2 ^ n) :
    (a ^^^ b) % 2 ^ n = a % 2 ^ n ^^^ b := by
  apply Nat.eq_of_testBit_eq
  intro i
  rcases lt_or_ge i n with hi | hi
  · simp [Nat.testBit_mod_two_pow, hi]
  · have hbi : b.testBit i = false :=
      Nat.testBit_eq_false_of_lt
        (lt_of_lt_of_le hb (Nat.pow_le_pow_right (by norm_num) hi))
    simp [Nat.testBit_mod_two_pow, Nat.not_lt.mpr hi, hbi]

/-- One documented round computes the same register value as one unrolled
source statement. -/
theorem specRound_eq_shiftStep (c : Nat) :
    CRC64WE.specRound c = CRC64WE.shiftStep c := by
  unfold CRC64WE.specRound CRC64WE.shiftStep
  by_cases hb : c.testBit 63 = true
  · rw [if_pos hb, if_pos ((and_mask_ne_zero c).mpr hb)]
    rw [CRC64WE.U64,
        xor_mod_two_pow_right _ _ _ (by decide : CRC64WE.Poly < 2 ^ 64)]
  · rw [if_neg hb, if_neg (fun hc => hb ((and_mask_ne_zero c).mp hc))]

/-- C7: for every byte and every 64-bit register state, the manually
unrolled per-byte update add(byte) computes exactly the same new state as
the documented reference algorithm: xor the byte into the top 8 bits, then
8 rounds of shift-left-by-1 with a conditional xor of the polynomial when
the bit shifted out of the top was 1. -/
theorem crc64we_add_refines_documented (crc byte : Nat) :
    CRC64WE.add crc byte = CRC64WE.specAdd crc byte := by
  have h8 : CRC64WE.specAdd crc byte =
      CRC64WE.specRound (CRC64WE.specRound (CRC64WE.specRound
        (CRC64WE.specRound (CRC64WE.specRound (CRC64WE.specRound
          (CRC64WE.specRound (CRC64WE.specRound
            ((crc ^^^ (byte <<< 56)) % CRC64WE.U64)))))))) := rfl
  rw [h8]
  simp only [specRound_eq_shiftStep]
  rfl

/-- The halt loop is absorbing: once in the halt phase, every further step
stays in the halt phase. -/
theorem haltStep_halted_absorbing (n : Nat) :
    Sys.haltStep^[n] Sys.HaltPhase.halted = Sys.HaltPhase.halted := by
  induction n with
  | zero => rfl
  | succ n ih =>
      rw [Function.iterate_succ_apply,
          show Sys.haltStep Sys.HaltPhase.halted = Sys.HaltPhase.halted
            from rfl, ih]

/-- C3: the fatal-halt path never returns control to its caller: from the
reporting phase entered by a failed assertion, an unhandled trap or an
explicit halt request, after any positive number of steps the system is in
the infinite halt loop (a phase distinct from returnedToCaller), and the
halt loop only steps to itself. -/
theorem halt_path_never_returns (n : Nat) :
    Sys.haltStep^[n + 1] Sys.HaltPhase.reporting = Sys.HaltPhase.halted ∧
    Sys.haltStep Sys.HaltPhase.halted = Sys.HaltPhase.halted := by
  constructor
  · rw [Function.iterate_succ_apply,
        show Sys.haltStep Sys.HaltPhase.reporting = Sys.HaltPhase.halted
          from rfl]
    exact haltStep_halted_absorbing n
  · rfl

/-- C4 (reading the request size of allocate-zeroed(count, size) as count
times size, as the spec's parenthetical "nonzero count and size" states):
every allocation entry point returns null whenever it returns; a zero-size
request never asserts in any build configuration; and in an
assertions-enabled build any nonzero-size request escalates. -/
theorem alloc_guard_contract (aOn : Bool) (sz num : Nat)
    (p q : Option Nat) :
    (Sys.malloc aOn sz = Sys.AllocResult.returned q → q = none) ∧
    (Sys.calloc aOn num sz = Sys.AllocResult.returned q → q = none) ∧
    (Sys.realloc aOn p sz = Sys.AllocResult.returned q → q = none) ∧
    (Sys.malloc aOn 0 = Sys.AllocResult.returned none) ∧
    (num * sz = 0 → Sys.calloc aOn num sz = Sys.AllocResult.returned none) ∧
    (Sys.realloc aOn p 0 = Sys.AllocResult.returned none) ∧
    (sz ≠ 0 → (Sys.malloc true sz).isEscalated = true) ∧
    (num * sz ≠ 0 → (Sys.calloc true num sz).isEscalated = true) ∧
    (sz ≠ 0 → (Sys.realloc true p sz).isEscalated = true) := by
  refine ⟨?_, ?_, ?_, ?_, ?_, ?_, ?_, ?_, ?_⟩
  · unfold Sys.malloc; split <;> intro h <;> simp_all
  · unfold Sys.calloc; split <;> intro h <;> simp_all
  · unfold Sys.realloc; split <;> intro h <;> simp_all
  · simp [Sys.malloc]
  · intro h
    rcases Nat.mul_eq_zero.mp h with h0 | h0 <;> subst h0 <;>
      simp [Sys.calloc]
  · simp [Sys.realloc]
  · intro h
    simp [Sys.malloc, Sys.AllocResult.isEscalated, h]
  · intro h
    rcases Nat.mul_ne_zero_iff.mp h with ⟨hn, hs⟩
    simp [Sys.calloc, Sys.AllocResult.isEscalated, hn, hs]
  · intro h
    simp [Sys.realloc, Sys.AllocResult.isEscalated, h]

/-- Concrete instance of C4: malloc(0) returns null without asserting in a
debug build, calloc(3, 4) escalates in a debug build, and malloc(5)
escalates in a debug build. -/
theorem alloc_guard_contract_witness :
    Sys.malloc true 0 = Sys.AllocResult.returned none ∧
    (Sys.calloc true 3 4).isEscalated = true ∧
    (Sys.malloc true 5).isEscalated = true :=
  ⟨(alloc_guard_contract true 5 3 none none).2.2.2.1,
   (alloc_guard_contract true 4 3 none none).2.2.2.2.2.2.2.1 (by decide),
   (alloc_guard_contract true 5 3 none none).2.2.2.2.2.2.1 (by decide)⟩

/-- C5: releasing a null pointer is a silent no-op, and releasing any
non-null pointer halts with the distinguishing message "free". -/
theorem free_contract (a : Nat) :
    Sys.free none = Sys.FreeResult.noop ∧
    Sys.free (some a) = Sys.FreeResult.halted "free" :=
  ⟨rfl, rfl⟩

/-- With the thread registry disabled and a message supplied, the byte sink
receives exactly the fixed delimiters and the message: no identity and no
placeholder string is emitted between the opening delimiter and the closing
bracket, contrary to the claim's "else a placeholder". -/
theorem zchSysHaltHook_no_placeholder :
    Sys.zchSysHaltHook ⟨false, none⟩ (some "boom") =
      ["\r\nPANIC [", "] ", "boom", "\r\n"] :=
  rfl

/-- C8 (amended): the byte sink receives, in order, the fixed opening
delimiter, the thread identity exactly when the registry is enabled and a
named thread is current (otherwise nothing is emitted in its place), the
fixed closing bracket, the supplied message text, and the trailing
delimiter. -/
theorem zchSysHaltHook_message_order (n m : String) (u : Bool)
    (t : Option String) :
    Sys.zchSysHaltHook ⟨true, some n⟩ (some m) =
      ["\r\nPANIC [", n, "] ", m, "\r\n"] ∧
    Sys.zchSysHaltHook ⟨u, none⟩ (some m) =
      ["\r\nPANIC [", "] ", m, "\r\n"] ∧
    Sys.zchSysHaltHook ⟨false, t⟩ (some m) =
      ["\r\nPANIC [", "] ", m, "\r\n"] := by
  refine ⟨rfl, ?_, rfl⟩
  cases u <;> rfl

/-- In an assertions-enabled build, add(nullptr, 0) fails the pointer
assertion even though the length is zero: it escalates instead of returning
the unchanged accumulator value, so the claim fails at this input. -/
theorem addBuffer_null_zero_cex :
    CRC64WE.addBuffer true CRC64WE.init true [] = none ∧
    (none : Option Nat) ≠ some CRC64WE.init :=
  ⟨rfl, by decide⟩

/-- C9 (amended): add(bytes, 0) is a no-op returning the unchanged
accumulator whenever the pointer is non-null, and also for a null pointer
when assertions are disabled; in an assertions-enabled build the pointer
assertion runs before the length is examined, so a null pointer fails even
with length 0. -/
theorem addBuffer_zero_len_noop (assertsOn : Bool) (crc : Nat)
    (isNull : Bool) (h : isNull = false ∨ assertsOn = false) :
    CRC64WE.addBuffer assertsOn crc isNull [] = some crc := by
  rcases h with h | h <;> subst h <;>
    simp [CRC64WE.addBuffer, CRC64WE.addBytes]

/-- Concrete instance of the amended C9: in a debug build, a zero-length
add on a non-null buffer leaves the accumulator value 7 unchanged. -/
theorem addBuffer_zero_len_noop_witness :
    ((false : Bool) = false ∨ (true : Bool) = false) ∧
    CRC64WE.addBuffer true 7 false [] = some 7 :=
  ⟨Or.inl rfl, addBuffer_zero_len_noop true 7 false (Or.inl rfl)⟩

/-- C10: with a null message pointer the hook still emits the panic header
(the opening delimiter plus the thread identity when available, then the
closing bracket) and the trailing delimiter, and no message text: the
message pointer is dereferenced only after the non-null check, so the trace
is fully defined. -/
theorem zchSysHaltHook_null_msg (n : String) (u : Bool) :
    Sys.zchSysHaltHook ⟨true, some n⟩ none =
      ["\r\nPANIC [", n, "] ", "\r\n"] ∧
    Sys.zchSysHaltHook ⟨u, none⟩ none =
      ["\r\nPANIC [", "] ", "\r\n"] := by
  refine ⟨rfl, ?_⟩
  cases u <;> rfl
